import Mathlib

/-!
Shallow embedding of the bolometer profiling operator
(github.com/a-kash-singh/bolometer) and proofs about the claims of its
specification.

The embedding follows the Go sources:
* `internal/controller/pod_watcher.go` — the instance registry (`PodWatcher`);
* `internal/controller/profilingconfig_controller.go` — the reconciler, the
  threshold monitor tick and the on-demand monitor tick;
* `internal/metrics/collector.go` — utilization percentages and thresholds;
* `internal/profiler/profiler.go` — profile acquisition over HTTP;
* `internal/uploader/s3.go` — object keys, metadata and service names.

Go maps are modelled as association lists (only `lookup`, replacing insert and
delete are used by the sources); `time.Time` instants used for cooldown
arithmetic are modelled as integer seconds, and instants that are only
formatted (the uploader) as calendar records. External effects (the cluster
API, the metrics API, HTTP, S3) are parameters of the functions that consume
them.
-/

namespace Bolometer

/-! ### Association lists standing in for Go maps -/

/-- Lookup in an association list; models reading a Go map. -/
def alookup {α : Type} (k : String) : List (String × α) → Option α
  | [] => none
  | (k', v) :: rest => if k' = k then some v else alookup k rest

/-- Remove a key; models `delete(m, k)` on a Go map. -/
def aerase {α : Type} (k : String) (m : List (String × α)) : List (String × α) :=
  m.filter (fun kv => kv.1 != k)

/-- Insert or replace a key; models `m[k] = v` on a Go map. -/
def ainsert {α : Type} (k : String) (v : α) (m : List (String × α)) : List (String × α) :=
  (k, v) :: aerase k m

theorem alookup_aerase_ne {α : Type} (k k' : String) (m : List (String × α)) (h : k' ≠ k) :
    alookup k (aerase k' m) = alookup k m := by
  induction m with
  | nil => rfl
  | cons kv rest ih =>
    by_cases hk : kv.1 = k'
    · simp only [aerase, List.filter]
      rw [show (kv.1 != k') = false by simp [hk]]
      simp only [alookup]
      rw [if_neg (by rw [hk]; exact h)]
      exact ih
    · simp only [aerase, List.filter]
      rw [show (kv.1 != k') = true by simp [hk]]
      cases kv with
      | mk k₀ v₀ =>
        simp only [alookup]
        by_cases hk0 : k₀ = k
        · simp [hk0]
        · simp only [if_neg hk0]
          exact ih

theorem alookup_ainsert_ne {α : Type} (k k' : String) (v : α) (m : List (String × α)) (h : k' ≠ k) :
    alookup k (ainsert k' v m) = alookup k m := by
  simp only [ainsert, alookup, if_neg h]
  exact alookup_aerase_ne k k' m h

theorem alookup_ainsert_self {α : Type} (k : String) (v : α) (m : List (String × α)) :
    alookup k (ainsert k v m) = some v := by
  simp [ainsert, alookup]

/-! ### Data model: pods and profiling configs -/

/-- An entry of `Pod.OwnerReferences` (the fields the uploader reads). -/
structure OwnerRef where
  kind : String
  name : String
  deriving DecidableEq, Repr

/-- A container of `Pod.Spec.Containers`: its declared resource requests.
`none` models a missing key in `Resources.Requests`; CPU is in millicores,
memory in bytes (the units `MilliValue` and `Value` yield in the collector). -/
structure SpecContainer where
  cpuRequest : Option Int
  memoryRequest : Option Int
  deriving DecidableEq, Repr

/-- The fields of `corev1.Pod` that the operator reads. -/
structure Pod where
  ns : String
  name : String
  labels : List (String × String)
  annots : List (String × String)
  ownerRefs : List OwnerRef
  phase : String
  containers : List SpecContainer
  deriving DecidableEq, Repr

/-- Model of `ThresholdConfig` of `api/v1alpha1/profilingconfig_types.go`. -/
structure ThresholdConfig where
  cpuThresholdPercent : Int
  memoryThresholdPercent : Int
  checkIntervalSeconds : Int
  cooldownSeconds : Int
  deriving DecidableEq, Repr

/-- Model of `OnDemandConfig` of `api/v1alpha1/profilingconfig_types.go`. -/
structure OnDemandConfig where
  enabled : Bool
  intervalSeconds : Int
  deriving DecidableEq, Repr

/-- Model of `S3Configuration` of `api/v1alpha1/profilingconfig_types.go`.
The field `pfx` models `Prefix`. -/
structure S3Configuration where
  bucket : String
  pfx : String
  region : String
  endpoint : String
  deriving DecidableEq, Repr

/-- A `ProfilingConfig` resource: identity plus the spec fields the
controller reads. -/
structure ProfilingConfig where
  name : String
  ns : String
  selectorNamespace : String
  labelSelector : List (String × String)
  thresholds : ThresholdConfig
  onDemand : Option OnDemandConfig
  s3Config : S3Configuration
  profileTypes : List String
  deriving DecidableEq, Repr

/-! ### The instance registry (`pod_watcher.go`) -/

/-- Model of `TrackedPod` of `pod_watcher.go` (the `StopChan` and `OnDemandTicker`
fields are never assigned anywhere in the repository and stay nil, so they
are not modelled). -/
structure TrackedPod where
  pod : Pod
  config : ProfilingConfig
  deriving DecidableEq, Repr

/-- The `PodWatcher` state: its two maps keyed by the pod key. -/
structure PodWatcher where
  trackedPods : List (String × TrackedPod)
  lastProfileTime : List (String × Int)
  deriving DecidableEq, Repr

/-- Model of `NewPodWatcher`: both maps start empty. -/
def emptyWatcher : PodWatcher := { trackedPods := [], lastProfileTime := [] }

/-- Model of `getPodKey`: `pod.Namespace + "/" + pod.Name`. -/
def getPodKey (pod : Pod) : String := pod.ns ++ "/" ++ pod.name

/-- Model of `stopTrackingLocked`: removes the tracking entry and the last-profile
time for the key (closing the nil chan/ticker fields has no state effect). -/
def stopTrackingLocked (pw : PodWatcher) (key : String) : PodWatcher :=
  { trackedPods := aerase key pw.trackedPods
    lastProfileTime := aerase key pw.lastProfileTime }

/-- Model of `TrackPod`: if the key is already tracked, first `stopTrackingLocked`,
then store the fresh entry. -/
def trackPod (pw : PodWatcher) (pod : Pod) (config : ProfilingConfig) : PodWatcher :=
  let key := getPodKey pod
  let pw' :=
    match alookup key pw.trackedPods with
    | some _ => stopTrackingLocked pw key
    | none => pw
  { pw' with trackedPods := ainsert key ⟨pod, config⟩ pw'.trackedPods }

/-- Model of `StopTrackingPod`: `stopTrackingLocked` when the key is tracked, no-op
otherwise. -/
def stopTrackingPod (pw : PodWatcher) (pod : Pod) : PodWatcher :=
  let key := getPodKey pod
  match alookup key pw.trackedPods with
  | some _ => stopTrackingLocked pw key
  | none => pw

/-- Model of `GetTrackedPods`: snapshot of the tracked entries. -/
def getTrackedPods (pw : PodWatcher) : List TrackedPod :=
  pw.trackedPods.map (fun kv => kv.2)

/-- Model of `CanProfile`: true iff no last-profile time is recorded for the pod key,
or `now - lastTime > cooldownSeconds` (the Go code compares
`time.Since(lastTime) > cooldown`); `now` is the current wall time in
seconds. -/
def canProfile (pw : PodWatcher) (pod : Pod) (cooldownSeconds : Int) (now : Int) : Bool :=
  match alookup (getPodKey pod) pw.lastProfileTime with
  | none => true
  | some lastTime => decide (now - lastTime > cooldownSeconds)

/-- Model of `UpdateLastProfileTime`: sets the last-profile time of the pod key to the
current wall time. -/
def updateLastProfileTime (pw : PodWatcher) (pod : Pod) (now : Int) : PodWatcher :=
  { pw with lastProfileTime := ainsert (getPodKey pod) now pw.lastProfileTime }

/-- Model of `GetActivePodCount`: size of the tracked map. -/
def getActivePodCount (pw : PodWatcher) : Nat := pw.trackedPods.length

/-! ### Utilization sampling (`internal/metrics/collector.go`) -/

/-- A container entry of the metrics API response: its usage. `none` models a
missing key in the `Usage` map; CPU in millicores, memory in bytes. -/
structure MetricsContainer where
  cpuUsage : Option Int
  memoryUsage : Option Int
  deriving DecidableEq, Repr

/-- The per-pod metrics API response (`v1beta1.PodMetrics`). -/
structure PodMetricsApi where
  containers : List MetricsContainer
  deriving DecidableEq, Repr

/-- The collector's `PodMetrics` result. Percentages are exact rationals
standing in for Go float64 values. -/
structure PodMetrics where
  cpuUsagePercent : ℚ
  memoryUsagePercent : ℚ
  cpuUsage : Int
  memoryUsage : Int
  deriving DecidableEq, Repr

/-- Sum an optional field over a list, skipping absent entries; models the
aggregation loops `if v, ok := m[k]; ok { total.Add(v) }`. -/
def sumOpt {α : Type} (f : α → Option Int) (l : List α) : Int :=
  l.foldl (fun acc c => match f c with | some v => acc + v | none => acc) 0

/-- Format a rational with two decimal places; models `fmt.Sprintf("%.2f", x)`
(tie-breaking of the third decimal digit may differ from Go's float
formatting; no theorem below depends on the digits). -/
def formatPercent (q : ℚ) : String :=
  let cents : Int := round (q * 100)
  let sign := if cents < 0 then "-" else ""
  let n := cents.natAbs
  sign ++ toString (n / 100) ++ "." ++
    (if n % 100 < 10 then "0" else "") ++ toString (n % 100)

/-- Model of `calculateMetrics`: aggregate usage over the metrics containers and
requests over the pod spec containers, then take percentages, guarding a zero
aggregate request. The Go function returns `(*PodMetrics, error)` and never a
non-nil error. -/
def calculateMetrics (pod : Pod) (podMetrics : PodMetricsApi) : Except String PodMetrics :=
  let totalCPUUsage := sumOpt (fun c => c.cpuUsage) podMetrics.containers
  let totalMemoryUsage := sumOpt (fun c => c.memoryUsage) podMetrics.containers
  let totalCPURequest := sumOpt (fun c => c.cpuRequest) pod.containers
  let totalMemoryRequest := sumOpt (fun c => c.memoryRequest) pod.containers
  let cpuPercent : ℚ :=
    if totalCPURequest = 0 then 0
    else (totalCPUUsage : ℚ) / (totalCPURequest : ℚ) * 100
  let memoryPercent : ℚ :=
    if totalMemoryRequest = 0 then 0
    else (totalMemoryUsage : ℚ) / (totalMemoryRequest : ℚ) * 100
  .ok { cpuUsagePercent := cpuPercent
        memoryUsagePercent := memoryPercent
        cpuUsage := totalCPUUsage
        memoryUsage := totalMemoryUsage }

/-- Model of `CheckThresholds`: CPU is tested first with a strict comparison, then
memory; returns the exceeded flag and the reason string. -/
def checkThresholds (pm : PodMetrics) (cpuThreshold memoryThreshold : Int) : Bool × String :=
  if pm.cpuUsagePercent > (cpuThreshold : ℚ) then
    (true, "CPU usage " ++ formatPercent pm.cpuUsagePercent ++ "% exceeds threshold " ++
      toString cpuThreshold ++ "%")
  else if pm.memoryUsagePercent > (memoryThreshold : ℚ) then
    (true, "Memory usage " ++ formatPercent pm.memoryUsagePercent ++ "% exceeds threshold " ++
      toString memoryThreshold ++ "%")
  else
    (false, "")

/-! ### Monitor ticks (`profilingconfig_controller.go`)

`checkPodsThresholds` and the body of the on-demand ticker loop are modelled
as functions of the watcher state, the config, the external results
(metrics and capture success) and the current wall time. A `CaptureRecord`
models one invocation of `captureAndUpload`. -/

/-- One invocation of `captureAndUpload`: the pod key and config it ran for,
the `reason` argument it received, the wall time at which it started, whether
it came from the on-demand monitor (`monitorOnDemand`) rather than the
threshold monitor, and whether it succeeded. -/
structure CaptureRecord where
  podKey : String
  configName : String
  reason : String
  viaOnDemand : Bool
  time : Int
  succeeded : Bool
  deriving DecidableEq, Repr

/-- The loop of `checkPodsThresholds` over the tracked snapshot: skip pods in
cooldown, skip pods whose metrics fetch fails, evaluate thresholds, and on
exceed run `captureAndUpload`; only a successful capture updates the
last-profile time. -/
def checkPodsAux (config : ProfilingConfig) (metrics : Pod → Except String PodMetrics)
    (captureOk : Pod → Bool) (now : Int) :
    PodWatcher → List TrackedPod → PodWatcher × List CaptureRecord
  | pw, [] => (pw, [])
  | pw, tracked :: rest =>
    if canProfile pw tracked.pod config.thresholds.cooldownSeconds now then
      match metrics tracked.pod with
      | .error _ => checkPodsAux config metrics captureOk now pw rest
      | .ok pm =>
        let chk := checkThresholds pm config.thresholds.cpuThresholdPercent
          config.thresholds.memoryThresholdPercent
        if chk.1 then
          let record : CaptureRecord :=
            { podKey := getPodKey tracked.pod, configName := config.name, reason := chk.2
              viaOnDemand := false, time := now, succeeded := captureOk tracked.pod }
          if captureOk tracked.pod then
            let next := checkPodsAux config metrics captureOk now
              (updateLastProfileTime pw tracked.pod now) rest
            (next.1, record :: next.2)
          else
            let next := checkPodsAux config metrics captureOk now pw rest
            (next.1, record :: next.2)
        else checkPodsAux config metrics captureOk now pw rest
    else checkPodsAux config metrics captureOk now pw rest

/-- Model of `checkPodsThresholds`: snapshot the tracked pods, then run the loop. -/
def checkPodsThresholds (pw : PodWatcher) (config : ProfilingConfig)
    (metrics : Pod → Except String PodMetrics) (captureOk : Pod → Bool) (now : Int) :
    PodWatcher × List CaptureRecord :=
  checkPodsAux config metrics captureOk now pw (getTrackedPods pw)

/-- The body of one on-demand ticker iteration in `monitorOnDemand`: snapshot
the tracked pods and run `captureAndUpload` for each with reason
`"on-demand"`; the watcher state is never read for cooldown nor written. -/
def onDemandTick (pw : PodWatcher) (config : ProfilingConfig)
    (captureOk : Pod → Bool) (now : Int) : PodWatcher × List CaptureRecord :=
  let trackedPods := getTrackedPods pw
  (pw, trackedPods.map (fun tracked =>
    { podKey := getPodKey tracked.pod, configName := config.name, reason := "on-demand"
      viaOnDemand := true, time := now, succeeded := captureOk tracked.pod }))

/-! ### Profile acquisition (`internal/profiler/profiler.go`) -/

/-- A wall-clock instant as the calendar fields that `time.Time.Format`
reads (the uploader formats timestamps; it never does arithmetic on them). -/
structure Instant where
  year : Nat
  month : Nat
  day : Nat
  hour : Nat
  minute : Nat
  second : Nat
  deriving DecidableEq, Repr

/-- A captured profile (`profiler.Profile`): kind (`ptype` models the Go
field `Type`), raw bytes, and the acquisition timestamp. -/
structure Profile where
  ptype : String
  data : List Nat
  timestamp : Instant
  deriving DecidableEq, Repr

/-- One HTTP response as the acquirer observes it: status code, body bytes,
and the wall clock reading `time.Now()` taken right after `io.ReadAll`
returns the full body. -/
structure HttpResponse where
  statusCode : Int
  body : List Nat
  doneAt : Instant
  deriving DecidableEq, Repr

/-- Model of `getProfileEndpoint`: the fixed kind-to-path table with a pass-through
default. -/
def getProfileEndpoint (profileType : String) : String :=
  if profileType = "heap" then "/debug/pprof/heap"
  else if profileType = "cpu" then "/debug/pprof/profile?seconds=30"
  else if profileType = "goroutine" then "/debug/pprof/goroutine"
  else if profileType = "mutex" then "/debug/pprof/mutex"
  else if profileType = "block" then "/debug/pprof/block"
  else if profileType = "threadcreate" then "/debug/pprof/threadcreate"
  else "/debug/pprof/" ++ profileType

/-- The URL `captureProfile` requests for a profile type through the local
tunnel port. -/
def profileURL (localPort : Int) (profileType : String) : String :=
  "http://localhost:" ++ toString localPort ++ getProfileEndpoint profileType

/-- Model of `captureProfile`: issue the GET (the HTTP layer is the parameter `http`,
mapping a URL to its response); any status other than 200 fails; on success
the profile's timestamp is the instant the body was fully read. -/
def captureProfile (http : String → HttpResponse) (localPort : Int)
    (profileType : String) : Except String Profile :=
  let resp := http (profileURL localPort profileType)
  if resp.statusCode ≠ 200 then
    .error ("unexpected status code: " ++ toString resp.statusCode)
  else
    .ok { ptype := profileType, data := resp.body, timestamp := resp.doneAt }

/-- The capture loop of `CaptureProfiles` over the requested kinds: stop at
the first failure, otherwise accumulate in request order. -/
def captureLoop (http : String → HttpResponse) (localPort : Int) :
    List String → Except String (List Profile)
  | [] => .ok []
  | ty :: rest =>
    match captureProfile http localPort ty with
    | .error e => .error ("failed to capture " ++ ty ++ " profile: " ++ e)
    | .ok profile =>
      match captureLoop http localPort rest with
      | .error e => .error e
      | .ok profiles => .ok (profile :: profiles)

/-- Model of `CaptureProfiles`: establish the port-forward (its outcome, an OS-chosen
local port or a failure, is the parameter `portForward`), then capture each
requested kind in order. -/
def captureProfiles (http : String → HttpResponse) (portForward : Except String Int)
    (profileTypes : List String) : Except String (List Profile) :=
  match portForward with
  | .error e => .error ("failed to setup port forward: " ++ e)
  | .ok localPort => captureLoop http localPort profileTypes

/-! ### Object-store publishing (`internal/uploader/s3.go`) -/

/-- Zero-pad a number to two digits, as `time.Time.Format` does for month,
day, hour, minute and second fields. -/
def pad2 (n : Nat) : String :=
  if n < 10 then "0" ++ toString n else toString n

/-- Zero-pad a year to four digits, as `time.Time.Format` does for `2006`. -/
def pad4 (n : Nat) : String :=
  if n < 10 then "000" ++ toString n
  else if n < 100 then "00" ++ toString n
  else if n < 1000 then "0" ++ toString n
  else toString n

/-- Model of `Format("2006-01-02")`. -/
def formatDate (t : Instant) : String :=
  pad4 t.year ++ "-" ++ pad2 t.month ++ "-" ++ pad2 t.day

/-- Model of `Format("20060102-150405")`. -/
def formatCompact (t : Instant) : String :=
  pad4 t.year ++ pad2 t.month ++ pad2 t.day ++ "-" ++
    pad2 t.hour ++ pad2 t.minute ++ pad2 t.second

/-- Model of `Format(time.RFC3339)` for a UTC instant. -/
def formatRFC3339 (t : Instant) : String :=
  formatDate t ++ "T" ++ pad2 t.hour ++ ":" ++ pad2 t.minute ++ ":" ++ pad2 t.second ++ "Z"

/-- The uploader state: bucket and key prefix (`pfx` models the field
`prefix`). -/
structure S3Uploader where
  bucket : String
  pfx : String
  deriving DecidableEq, Repr

/-- Join path segments with `/`; models `filepath.Join` for segments that
are already clean (no separators or dot segments inside), which is how the
uploader calls it: empty segments are collapsed. -/
def joinSlash : List String → String
  | [] => ""
  | [s] => s
  | s :: rest => s ++ "/" ++ joinSlash rest

/-- Model of `filepath.Join` as the uploader uses it. -/
def filepathJoin (parts : List String) : String :=
  joinSlash (parts.filter (fun s => s != ""))

/-- Index of the last occurrence of `'-'` in a character list, if any (the
Go code finds it by scanning right to left). -/
def lastDashIdx : List Char → Nat → Option Nat
  | [], _ => none
  | c :: rest, i =>
    match lastDashIdx rest (i + 1) with
    | some j => some j
    | none => if c = '-' then some i else none

/-- The ReplicaSet branch of `getServiceName`: `lastDash` starts at
`len(name)-1` and is overwritten by the index of the last `'-'`; the prefix
is returned only when `lastDash > 0`, otherwise control falls through to
returning the owner name unchanged. -/
def replicaSetStrip (name : String) : Option String :=
  let cs := name.toList
  let lastDash := (lastDashIdx cs 0).getD (cs.length - 1)
  if lastDash > 0 then some (String.mk (cs.take lastDash)) else none

/-- Index of the second `'-'` counting from the right, if any. -/
def secondLastDashIdx (cs : List Char) : Option Nat :=
  match lastDashIdx cs 0 with
  | none => none
  | some j => lastDashIdx (cs.take j) 0

/-- The pod-name fallback of `getServiceName`: strip from the second dash
from the right when that dash sits at a positive index, else keep the whole
name. -/
def podNameStrip (name : String) : String :=
  let cs := name.toList
  match secondLastDashIdx cs with
  | some i => if i > 0 then String.mk (cs.take i) else name
  | none => name

/-- A label value that is present and non-empty, as the checks
`if v, ok := labels[k]; ok && v != ""` read it. -/
def labelValue (k : String) (labels : List (String × String)) : Option String :=
  match alookup k labels with
  | some v => if v = "" then none else some v
  | none => none

/-- Model of `getServiceName`: labels in priority order, then the first owner
reference (hash-stripped for ReplicaSet owners), then the pod name. -/
def getServiceName (pod : Pod) : String :=
  match labelValue "app.kubernetes.io/name" pod.labels with
  | some name => name
  | none =>
    match labelValue "app" pod.labels with
    | some app => app
    | none =>
      match labelValue "k8s-app" pod.labels with
      | some app => app
      | none =>
        match pod.ownerRefs with
        | owner :: _ =>
          if owner.kind = "ReplicaSet" then
            match replicaSetStrip owner.name with
            | some s => s
            | none => owner.name
          else owner.name
        | [] => podNameStrip pod.name

/-- Model of `generateKey`: `<prefix>/<date>/<service-name>/<timestamp>-<type>.pprof`
joined with empty segments collapsed. -/
def generateKey (u : S3Uploader) (pod : Pod) (profile : Profile) : String :=
  let date := formatDate profile.timestamp
  let serviceName := getServiceName pod
  let timestamp := formatCompact profile.timestamp
  let filename := timestamp ++ "-" ++ profile.ptype ++ ".pprof"
  filepathJoin [u.pfx, date, serviceName, filename]

/-- The `PutObject` request `UploadProfile` issues. -/
structure PutObjectInput where
  bucket : String
  key : String
  body : List Nat
  contentType : String
  metadata : List (String × String)
  deriving DecidableEq, Repr

/-- Model of `UploadProfile`: compose the key, attach the metadata (identity fields,
profile type, reason, RFC 3339 timestamp, and one `pod-label-<k>` entry per
pod label) and put the bytes. -/
def uploadProfile (u : S3Uploader) (pod : Pod) (profile : Profile)
    (reason : String) : PutObjectInput :=
  { bucket := u.bucket
    key := generateKey u pod profile
    body := profile.data
    contentType := "application/octet-stream"
    metadata :=
      [("pod-name", pod.name),
       ("pod-namespace", pod.ns),
       ("profile-type", profile.ptype),
       ("reason", reason),
       ("timestamp", formatRFC3339 profile.timestamp)] ++
      pod.labels.map (fun kv => ("pod-label-" ++ kv.1, kv.2)) }

/-! ### The reconciler (`profilingconfig_controller.go`) -/

/-- Model of `validateConfig`: bucket first, then region. -/
def validateConfig (config : ProfilingConfig) : Except String Unit :=
  if config.s3Config.bucket = "" then .error "s3 bucket is required"
  else if config.s3Config.region = "" then .error "s3 region is required"
  else .ok ()

/-- The two monitor goroutines `startMonitoring` can spawn. -/
inductive MonitorKind where
  | threshold
  | onDemand
  deriving DecidableEq, Repr

instance : BEq MonitorKind := ⟨fun a b => decide (a = b)⟩

/-- The reconciler state: the watcher plus the keys holding an active cancel
function in `activeMonitors`. -/
structure ReconcilerState where
  watcher : PodWatcher
  activeMonitors : List String
  deriving DecidableEq, Repr

/-- What one `Reconcile` call returns and does besides mutating the state:
the result (an error message, or success with the requeue delay in seconds),
the monitors it started, and the `ActivePods` status values it wrote. -/
structure ReconcileOutput where
  res : Except String (Option Int)
  startedMonitors : List MonitorKind
  statusWrites : List Nat
  deriving Repr

/-- Model of `stopMonitoring`: cancel and drop the entry for the key. -/
def stopMonitoring (monitors : List String) (configKey : String) : List String :=
  monitors.filter (fun k => k != configKey)

/-- Model of `startMonitoring`: record the cancel handle and spawn the threshold
monitor, plus the on-demand monitor when enabled. -/
def startedFor (config : ProfilingConfig) : List MonitorKind :=
  MonitorKind.threshold ::
    (match config.onDemand with
     | some od => if od.enabled then [MonitorKind.onDemand] else []
     | none => [])

/-- Model of `Reconcile`: fetch (the `fetched` parameter: `none` models a not-found
error), tear down on deletion, validate, list pods (the `listResult`
parameter), track them, write status, and restart the monitors for the key.
The requeue delay on success is 30 seconds. -/
def reconcile (s : ReconcilerState) (reqKey : String)
    (fetched : Option ProfilingConfig) (listResult : Except String (List Pod)) :
    ReconcilerState × ReconcileOutput :=
  match fetched with
  | none =>
    ({ s with activeMonitors := stopMonitoring s.activeMonitors reqKey },
     { res := .ok none, startedMonitors := [], statusWrites := [] })
  | some config =>
    match validateConfig config with
    | .error e => (s, { res := .error e, startedMonitors := [], statusWrites := [] })
    | .ok _ =>
      match listResult with
      | .error e => (s, { res := .error e, startedMonitors := [], statusWrites := [] })
      | .ok pods =>
        let watcher := pods.foldl (fun w p => trackPod w p config) s.watcher
        let monitors := stopMonitoring s.activeMonitors reqKey ++ [reqKey]
        ({ watcher := watcher, activeMonitors := monitors },
         { res := .ok (some 30), startedMonitors := startedFor config
           statusWrites := [pods.length] })

/-! ### Event traces over the watcher

The monitors and the reconciler's tracking loop all act on the shared
`PodWatcher`. An event trace interleaves their effects; `runEvents` collects
every `captureAndUpload` invocation along the way. -/

/-- An event acting on the shared watcher: one threshold-monitor tick for a
config, one on-demand tick, the tracking loop of one `Reconcile` call, or an
explicit untrack. -/
inductive WatchEvent where
  | thresholdTick (config : ProfilingConfig) (metrics : Pod → Except String PodMetrics)
      (captureOk : Pod → Bool) (now : Int)
  | onDemandTickEv (config : ProfilingConfig) (captureOk : Pod → Bool) (now : Int)
  | reconcileTrack (pods : List Pod) (config : ProfilingConfig)
  | stopTracking (pod : Pod)

/-- Effect of one event on the watcher, with the captures it starts. -/
def stepEvent (pw : PodWatcher) : WatchEvent → PodWatcher × List CaptureRecord
  | .thresholdTick config metrics captureOk now =>
    checkPodsThresholds pw config metrics captureOk now
  | .onDemandTickEv config captureOk now => onDemandTick pw config captureOk now
  | .reconcileTrack pods config => (pods.foldl (fun w p => trackPod w p config) pw, [])
  | .stopTracking pod => (stopTrackingPod pw pod, [])

/-- Run a trace, concatenating the capture records in order. -/
def runEvents (pw : PodWatcher) : List WatchEvent → PodWatcher × List CaptureRecord
  | [] => (pw, [])
  | e :: rest =>
    let this := stepEvent pw e
    let next := runEvents this.1 rest
    (next.1, this.2 ++ next.2)

/-- Whether an event tracks or untracks the pod key `k`. -/
def touchesKey (k : String) : WatchEvent → Bool
  | .reconcileTrack pods _ => pods.any (fun p => getPodKey p == k)
  | .stopTracking pod => getPodKey pod == k
  | _ => false

/-- Whether an event is a threshold tick falling inside the cooldown window
that a capture at time `t` opens (relative to the config the tick runs
for). -/
def insideCooldownWindow (t : Int) : WatchEvent → Prop
  | .thresholdTick config _ _ now => now - t ≤ config.thresholds.cooldownSeconds
  | _ => True

/-! ## Theorems about the claims -/

/-- C4: for every pair of sampled percentages `(cpu, mem)` and integer
thresholds `(ct, mt)`, the threshold test reports exceeded iff `cpu > ct` or
`mem > mt` (strict, so equality is not exceeded), and when both exceed the
returned reason cites CPU. -/
theorem claim4_check_thresholds (cpu mem : ℚ) (cpuU memU : Int) (ct mt : Int) :
    ((checkThresholds ⟨cpu, mem, cpuU, memU⟩ ct mt).1 = true ↔
      cpu > (ct : ℚ) ∨ mem > (mt : ℚ)) ∧
    (cpu > (ct : ℚ) → mem > (mt : ℚ) →
      ∃ rest, (checkThresholds ⟨cpu, mem, cpuU, memU⟩ ct mt).2 = "CPU usage " ++ rest) := by
  constructor
  · unfold checkThresholds
    by_cases h1 : cpu > (ct : ℚ) <;> by_cases h2 : mem > (mt : ℚ) <;> simp [h1, h2]
  · intro h1 _
    unfold checkThresholds
    simp only [h1, if_true]
    exact ⟨formatPercent cpu ++ ("% exceeds threshold " ++ (toString ct ++ "%")),
      by simp [String.append_assoc]⟩

/-- Witness for `claim4_check_thresholds` at cpu = 90 > 80, mem = 95 > 90. -/
theorem claim4_witness :
    (90 : ℚ) > ((80 : Int) : ℚ) ∧ (95 : ℚ) > ((90 : Int) : ℚ) ∧
    (checkThresholds ⟨90, 95, 900, 950⟩ 80 90).1 = true ∧
    (∃ rest, (checkThresholds ⟨90, 95, 900, 950⟩ 80 90).2 = "CPU usage " ++ rest) := by
  have h := claim4_check_thresholds 90 95 900 950 80 90
  refine ⟨by norm_num, by norm_num, h.1.mpr (Or.inl (by norm_num)), h.2 (by norm_num) (by norm_num)⟩

/-- C10: when the aggregate declared request for a resource is zero, the
computed utilization percent for that resource is 0, and the computation
returns no error. -/
theorem claim10_zero_request (pod : Pod) (pm : PodMetricsApi) :
    ∃ out, calculateMetrics pod pm = Except.ok out
      ∧ (sumOpt (fun c => c.cpuRequest) pod.containers = 0 → out.cpuUsagePercent = 0)
      ∧ (sumOpt (fun c => c.memoryRequest) pod.containers = 0 → out.memoryUsagePercent = 0) := by
  refine ⟨_, rfl, fun h => ?_, fun h => ?_⟩ <;> simp [calculateMetrics, h]

/-- Witness for `claim10_zero_request`: a pod whose single container declares
no requests, sampled with non-zero usage. -/
theorem claim10_witness :
    sumOpt (fun c => c.cpuRequest)
      (Pod.mk "default" "web" [] [] [] "Running" [⟨none, none⟩]).containers = 0 ∧
    ∃ out, calculateMetrics (Pod.mk "default" "web" [] [] [] "Running" [⟨none, none⟩])
        (PodMetricsApi.mk [⟨some 500, some 268435456⟩]) = Except.ok out ∧
      out.cpuUsagePercent = 0 := by
  obtain ⟨out, h1, h2, _⟩ := claim10_zero_request
    (Pod.mk "default" "web" [] [] [] "Running" [⟨none, none⟩])
    (PodMetricsApi.mk [⟨some 500, some 268435456⟩])
  exact ⟨by decide, out, h1, h2 (by decide)⟩

/-- C9 counterexample: the kind string `"thread-create"` (the spelling the
claim uses) is not in the code's switch; it falls through to the default rule
and maps to `/debug/pprof/thread-create`, not `/debug/pprof/threadcreate`. -/
theorem claim9_counterexample :
    getProfileEndpoint "thread-create" = "/debug/pprof/thread-create" ∧
    getProfileEndpoint "thread-create" ≠ "/debug/pprof/threadcreate" := by
  constructor
  · decide
  · decide

/-- C9 amended: the five dashless kinds plus `"threadcreate"` map to their
table entries, and every kind outside the six-entry table (including the
spelling `"thread-create"`) maps to `/debug/pprof/<kind>`. -/
theorem claim9_amended :
    getProfileEndpoint "heap" = "/debug/pprof/heap" ∧
    getProfileEndpoint "cpu" = "/debug/pprof/profile?seconds=30" ∧
    getProfileEndpoint "goroutine" = "/debug/pprof/goroutine" ∧
    getProfileEndpoint "mutex" = "/debug/pprof/mutex" ∧
    getProfileEndpoint "block" = "/debug/pprof/block" ∧
    getProfileEndpoint "threadcreate" = "/debug/pprof/threadcreate" ∧
    ∀ k : String,
      k ∉ (["heap", "cpu", "goroutine", "mutex", "block", "threadcreate"] : List String) →
      getProfileEndpoint k = "/debug/pprof/" ++ k := by
  refine ⟨by decide, by decide, by decide, by decide, by decide, by decide, ?_⟩
  intro k hk
  simp only [List.mem_cons, List.not_mem_nil, or_false, not_or] at hk
  obtain ⟨h1, h2, h3, h4, h5, h6⟩ := hk
  simp [getProfileEndpoint, h1, h2, h3, h4, h5, h6]

/-- Witness for `claim9_amended` at the unknown kind `"allocs"`. -/
theorem claim9_amended_witness :
    ("allocs" : String) ∉
      (["heap", "cpu", "goroutine", "mutex", "block", "threadcreate"] : List String) ∧
    getProfileEndpoint "allocs" = "/debug/pprof/allocs" :=
  ⟨by decide, claim9_amended.2.2.2.2.2.2 "allocs" (by decide)⟩

theorem captureLoop_error (http : String → HttpResponse) (localPort : Int) :
    ∀ profileTypes : List String,
      (∃ ty ∈ profileTypes, (http (profileURL localPort ty)).statusCode ≠ 200) →
      ∃ e, captureLoop http localPort profileTypes = .error e := by
  intro profileTypes
  induction profileTypes with
  | nil => rintro ⟨ty, hty, _⟩; exact absurd hty (List.not_mem_nil ty)
  | cons ty rest ih =>
    rintro ⟨t, ht, hbad⟩
    by_cases hhead : (http (profileURL localPort ty)).statusCode = 200
    · have htr : t ∈ rest := by
        rcases List.mem_cons.mp ht with rfl | h
        · exact absurd hhead hbad
        · exact h
      obtain ⟨e, he⟩ := ih ⟨t, htr, hbad⟩
      simp only [captureLoop, captureProfile]
      rw [if_neg (by simpa using hhead)]
      rw [he]
      exact ⟨e, rfl⟩
    · simp only [captureLoop, captureProfile]
      rw [if_pos (by simpa using hhead)]
      exact ⟨_, rfl⟩

theorem captureLoop_ok (http : String → HttpResponse) (localPort : Int) :
    ∀ profileTypes : List String,
      (∀ ty ∈ profileTypes, (http (profileURL localPort ty)).statusCode = 200) →
      captureLoop http localPort profileTypes =
        .ok (profileTypes.map (fun ty =>
          { ptype := ty, data := (http (profileURL localPort ty)).body
            timestamp := (http (profileURL localPort ty)).doneAt })) := by
  intro profileTypes
  induction profileTypes with
  | nil => intro _; rfl
  | cons ty rest ih =>
    intro hall
    have hhead := hall ty (List.mem_cons_self ty rest)
    have hrest := fun t ht => hall t (List.mem_cons_of_mem ty ht)
    simp only [captureLoop, captureProfile]
    rw [if_neg (by simpa using hhead)]
    rw [ih hrest]
    simp

/-- C8: if any per-kind HTTP request returns a status other than 200 the
whole capture fails with an error (no profiles, no partial success); when
every request succeeds, the returned profiles follow the requested kind
order, and each profile's timestamp is the wall-clock instant at which its
body was fully received. -/
theorem claim8_capture_profiles (http : String → HttpResponse) (localPort : Int)
    (profileTypes : List String) :
    ((∃ ty ∈ profileTypes, (http (profileURL localPort ty)).statusCode ≠ 200) →
      ∃ e, captureProfiles http (.ok localPort) profileTypes = .error e) ∧
    ((∀ ty ∈ profileTypes, (http (profileURL localPort ty)).statusCode = 200) →
      captureProfiles http (.ok localPort) profileTypes =
        .ok (profileTypes.map (fun ty =>
          { ptype := ty, data := (http (profileURL localPort ty)).body
            timestamp := (http (profileURL localPort ty)).doneAt }))) := by
  constructor
  · intro h
    obtain ⟨e, he⟩ := captureLoop_error http localPort profileTypes h
    exact ⟨e, by simpa [captureProfiles] using he⟩
  · intro h
    simpa [captureProfiles] using captureLoop_ok http localPort profileTypes h

/-- Witness for `claim8_capture_profiles`: a two-kind capture against a
server answering 200 with distinct bodies and receive instants, and the
same capture when the second kind answers 500. -/
theorem claim8_witness :
    (∀ ty ∈ (["heap", "cpu"] : List String),
      ((fun _ => HttpResponse.mk 200 [7] ⟨2024, 1, 15, 12, 0, 0⟩) (profileURL 9000 ty)).statusCode
        = 200) ∧
    captureProfiles (fun _ => HttpResponse.mk 200 [7] ⟨2024, 1, 15, 12, 0, 0⟩)
        (.ok 9000) ["heap", "cpu"] =
      .ok [⟨"heap", [7], ⟨2024, 1, 15, 12, 0, 0⟩⟩, ⟨"cpu", [7], ⟨2024, 1, 15, 12, 0, 0⟩⟩] ∧
    (∃ ty ∈ (["heap", "cpu"] : List String),
      ((fun _ => HttpResponse.mk 500 [] ⟨2024, 1, 15, 12, 0, 0⟩) (profileURL 9000 ty)).statusCode
        ≠ 200) ∧
    ∃ e, captureProfiles (fun _ => HttpResponse.mk 500 [] ⟨2024, 1, 15, 12, 0, 0⟩)
        (.ok 9000) ["heap", "cpu"] = .error e := by
  refine ⟨by decide, ?_, ⟨"heap", by decide, by decide⟩, ?_⟩
  · exact (claim8_capture_profiles (fun _ => HttpResponse.mk 200 [7] ⟨2024, 1, 15, 12, 0, 0⟩)
      9000 ["heap", "cpu"]).2 (by decide)
  · exact (claim8_capture_profiles (fun _ => HttpResponse.mk 500 [] ⟨2024, 1, 15, 12, 0, 0⟩)
      9000 ["heap", "cpu"]).1 ⟨"heap", by decide, by decide⟩

/-- C3: an on-demand tick never consults or updates cooldown state: it
leaves the watcher (in particular `lastProfileTime`) unchanged, runs one
capture-and-publish per tracked instance with reason `"on-demand"`, and the
captures it runs do not depend on the recorded last-profile times. -/
theorem claim3_on_demand_ignores_cooldown (pw : PodWatcher) (config : ProfilingConfig)
    (captureOk : Pod → Bool) (now : Int) (ltp : List (String × Int)) :
    (onDemandTick pw config captureOk now).1 = pw ∧
    ((onDemandTick pw config captureOk now).2.map (fun r => r.podKey) =
      (getTrackedPods pw).map (fun tracked => getPodKey tracked.pod)) ∧
    (∀ r ∈ (onDemandTick pw config captureOk now).2,
      r.reason = "on-demand" ∧ r.viaOnDemand = true) ∧
    ((onDemandTick { pw with lastProfileTime := ltp } config captureOk now).2 =
      (onDemandTick pw config captureOk now).2) := by
  refine ⟨rfl, by simp [onDemandTick], ?_, rfl⟩
  intro r hr
  simp only [onDemandTick, List.mem_map] at hr
  obtain ⟨tracked, _, rfl⟩ := hr
  exact ⟨rfl, rfl⟩

/-- Witness for `claim3_on_demand_ignores_cooldown`: one tracked pod deep in
cooldown is still captured on demand and the cooldown entry is untouched. -/
theorem claim3_witness :
    (onDemandTick
        ⟨[("default/web", ⟨⟨"default", "web", [], [], [], "Running", []⟩,
           ⟨"c1", "default", "default", [], ⟨30, 30, 10, 300⟩, none, ⟨"b", "", "r", ""⟩, []⟩⟩)],
          [("default/web", 100)]⟩
        ⟨"c1", "default", "default", [], ⟨30, 30, 10, 300⟩, none, ⟨"b", "", "r", ""⟩, []⟩
        (fun _ => true) 110).1 =
      ⟨[("default/web", ⟨⟨"default", "web", [], [], [], "Running", []⟩,
         ⟨"c1", "default", "default", [], ⟨30, 30, 10, 300⟩, none, ⟨"b", "", "r", ""⟩, []⟩⟩)],
        [("default/web", 100)]⟩ ∧
    ∀ r ∈ (onDemandTick
        ⟨[("default/web", ⟨⟨"default", "web", [], [], [], "Running", []⟩,
           ⟨"c1", "default", "default", [], ⟨30, 30, 10, 300⟩, none, ⟨"b", "", "r", ""⟩, []⟩⟩)],
          [("default/web", 100)]⟩
        ⟨"c1", "default", "default", [], ⟨30, 30, 10, 300⟩, none, ⟨"b", "", "r", ""⟩, []⟩
        (fun _ => true) 110).2, r.reason = "on-demand" ∧ r.viaOnDemand = true := by
  have h := claim3_on_demand_ignores_cooldown
    ⟨[("default/web", ⟨⟨"default", "web", [], [], [], "Running", []⟩,
       ⟨"c1", "default", "default", [], ⟨30, 30, 10, 300⟩, none, ⟨"b", "", "r", ""⟩, []⟩⟩)],
      [("default/web", 100)]⟩
    ⟨"c1", "default", "default", [], ⟨30, 30, 10, 300⟩, none, ⟨"b", "", "r", ""⟩, []⟩
    (fun _ => true) 110 []
  exact ⟨h.1, h.2.2.1⟩

theorem count_stopMonitoring (monitors : List String) (configKey : String) :
    (stopMonitoring monitors configKey).count configKey = 0 := by
  rw [List.count_eq_zero]
  intro hmem
  have := List.of_mem_filter hmem
  simp at this

/-- C7: reconciling an intent with an empty bucket fails with exactly the
error `"s3 bucket is required"`, leaving the reconciler state untouched,
starting no monitors, and writing no status; an empty region likewise fails;
with both present (and the pod listing succeeding) the reconcile succeeds
with a 30-second requeue, starts the threshold monitor exactly once (and the
on-demand monitor exactly once iff enabled), and leaves exactly one active
monitor entry for the key. -/
theorem claim7_reconcile_validation (s : ReconcilerState) (reqKey : String)
    (config : ProfilingConfig) (listResult : Except String (List Pod)) :
    (config.s3Config.bucket = "" →
      reconcile s reqKey (some config) listResult =
        (s, { res := .error "s3 bucket is required", startedMonitors := [], statusWrites := [] })) ∧
    (config.s3Config.bucket ≠ "" → config.s3Config.region = "" →
      reconcile s reqKey (some config) listResult =
        (s, { res := .error "s3 region is required", startedMonitors := [], statusWrites := [] })) ∧
    (config.s3Config.bucket ≠ "" → config.s3Config.region ≠ "" →
      ∀ pods, listResult = .ok pods →
        (reconcile s reqKey (some config) listResult).2.res = .ok (some 30) ∧
        (reconcile s reqKey (some config) listResult).2.startedMonitors.count
          MonitorKind.threshold = 1 ∧
        ((reconcile s reqKey (some config) listResult).2.startedMonitors.count
            MonitorKind.onDemand =
          match config.onDemand with
          | some od => if od.enabled then 1 else 0
          | none => 0) ∧
        (reconcile s reqKey (some config) listResult).1.activeMonitors.count reqKey = 1) := by
    refine ⟨fun hb => ?_, fun hb hr => ?_, fun hb hr pods hpods => ?_⟩
    · simp [reconcile, validateConfig, hb]
    · simp [reconcile, validateConfig, hb, hr]
    · subst hpods
      refine ⟨by simp [reconcile, validateConfig, hb, hr], ?_, ?_, ?_⟩
      · simp only [reconcile, validateConfig, if_neg hb, if_neg hr]
        cases hod : config.onDemand with
        | none => simp [startedFor, hod, List.count_cons]
        | some od =>
          cases hen : od.enabled <;>
            simp [startedFor, hod, hen, List.count_cons, List.count_singleton]
      · simp only [reconcile, validateConfig, if_neg hb, if_neg hr]
        cases hod : config.onDemand with
        | none => simp [startedFor, hod, List.count_cons]
        | some od =>
          cases hen : od.enabled <;>
            simp [startedFor, hod, hen, List.count_cons, List.count_singleton]
      · simp only [reconcile, validateConfig, if_neg hb, if_neg hr]
        rw [List.count_append, count_stopMonitoring]
        simp

/-- Witness for `claim7_reconcile_validation`: the empty-bucket intent is
rejected with the literal message and no monitors; the valid intent requeues
after 30 seconds with one threshold monitor. -/
theorem claim7_witness :
    (reconcile ⟨emptyWatcher, []⟩ "default/cfg"
        (some ⟨"cfg", "default", "default", [], ⟨80, 90, 30, 300⟩, none, ⟨"", "", "us-west-2", ""⟩, []⟩)
        (.ok []) =
      (⟨emptyWatcher, []⟩,
       { res := .error "s3 bucket is required", startedMonitors := [], statusWrites := [] })) ∧
    (reconcile ⟨emptyWatcher, []⟩ "default/cfg"
        (some ⟨"cfg", "default", "default", [], ⟨80, 90, 30, 300⟩, none,
          ⟨"bkt", "", "us-west-2", ""⟩, []⟩)
        (.ok [])).2.res = .ok (some 30) ∧
    (reconcile ⟨emptyWatcher, []⟩ "default/cfg"
        (some ⟨"cfg", "default", "default", [], ⟨80, 90, 30, 300⟩, none,
          ⟨"bkt", "", "us-west-2", ""⟩, []⟩)
        (.ok [])).2.startedMonitors.count MonitorKind.threshold = 1 := by
  have h1 := claim7_reconcile_validation ⟨emptyWatcher, []⟩ "default/cfg"
    ⟨"cfg", "default", "default", [], ⟨80, 90, 30, 300⟩, none, ⟨"", "", "us-west-2", ""⟩, []⟩
    (.ok [])
  have h2 := claim7_reconcile_validation ⟨emptyWatcher, []⟩ "default/cfg"
    ⟨"cfg", "default", "default", [], ⟨80, 90, 30, 300⟩, none, ⟨"bkt", "", "us-west-2", ""⟩, []⟩
    (.ok [])
  have h2v := h2.2.2 (by decide) (by decide) [] rfl
  exact ⟨h1.1 rfl, h2v.1, h2v.2.1⟩

/-- The pod of spec scenario 6: name `web-app-7d8f9c5b6d-xyz456`, both
service labels, and a ReplicaSet owner `web-app-7d8f9c5b6d`. -/
def scenarioPodBoth : Pod :=
  { ns := "default", name := "web-app-7d8f9c5b6d-xyz456"
    labels := [("app.kubernetes.io/name", "my-service"), ("app", "other")]
    annots := [], ownerRefs := [⟨"ReplicaSet", "web-app-7d8f9c5b6d"⟩]
    phase := "Running", containers := [] }

/-- The same pod without the `app.kubernetes.io/name` label. -/
def scenarioPodApp : Pod := { scenarioPodBoth with labels := [("app", "other")] }

/-- The same pod with no labels at all. -/
def scenarioPodNone : Pod := { scenarioPodBoth with labels := [] }

/-- C5: service-name derivation depends only on the instance's labels, owner
references and name (purity / determinism); it takes the first non-empty
value in the order label `app.kubernetes.io/name`, label `app`, label
`k8s-app`, first owner reference (hash-stripped when the owner kind is
`ReplicaSet`), pod name with the last two dash-separated segments stripped;
and on the spec's example pods it yields `my-service`, `other` and
`web-app`. -/
theorem claim5_service_name :
    (∀ p q : Pod, p.labels = q.labels → p.ownerRefs = q.ownerRefs → p.name = q.name →
      getServiceName p = getServiceName q) ∧
    (∀ (p : Pod) (v : String),
      labelValue "app.kubernetes.io/name" p.labels = some v → getServiceName p = v) ∧
    (∀ (p : Pod) (v : String),
      labelValue "app.kubernetes.io/name" p.labels = none →
      labelValue "app" p.labels = some v → getServiceName p = v) ∧
    (∀ (p : Pod) (v : String),
      labelValue "app.kubernetes.io/name" p.labels = none →
      labelValue "app" p.labels = none →
      labelValue "k8s-app" p.labels = some v → getServiceName p = v) ∧
    (∀ (p : Pod) (owner : OwnerRef) (rest : List OwnerRef) (i : Nat),
      labelValue "app.kubernetes.io/name" p.labels = none →
      labelValue "app" p.labels = none →
      labelValue "k8s-app" p.labels = none →
      p.ownerRefs = owner :: rest → owner.kind = "ReplicaSet" →
      lastDashIdx owner.name.toList 0 = some i → 0 < i →
      getServiceName p = String.mk (owner.name.toList.take i)) ∧
    (∀ (p : Pod) (owner : OwnerRef) (rest : List OwnerRef),
      labelValue "app.kubernetes.io/name" p.labels = none →
      labelValue "app" p.labels = none →
      labelValue "k8s-app" p.labels = none →
      p.ownerRefs = owner :: rest → owner.kind ≠ "ReplicaSet" →
      getServiceName p = owner.name) ∧
    (∀ (p : Pod) (i : Nat),
      labelValue "app.kubernetes.io/name" p.labels = none →
      labelValue "app" p.labels = none →
      labelValue "k8s-app" p.labels = none →
      p.ownerRefs = [] →
      secondLastDashIdx p.name.toList = some i → 0 < i →
      getServiceName p = String.mk (p.name.toList.take i)) ∧
    getServiceName scenarioPodBoth = "my-service" ∧
    getServiceName scenarioPodApp = "other" ∧
    getServiceName scenarioPodNone = "web-app" := by
  refine ⟨?_, ?_, ?_, ?_, ?_, ?_, ?_, by decide, by decide, by decide⟩
  · intro p q h1 h2 h3
    unfold getServiceName
    rw [h1, h2, h3]
  · intro p v h
    simp [getServiceName, h]
  · intro p v h1 h2
    simp [getServiceName, h1, h2]
  · intro p v h1 h2 h3
    simp [getServiceName, h1, h2, h3]
  · intro p owner rest i h1 h2 h3 hor hk hd hi
    simp only [String.toList] at hd
    simp [getServiceName, h1, h2, h3, hor, hk, replicaSetStrip, hd, hi]
  · intro p owner rest h1 h2 h3 hor hk
    simp [getServiceName, h1, h2, h3, hor, hk]
  · intro p i h1 h2 h3 hor hd hi
    simp only [String.toList] at hd
    simp [getServiceName, h1, h2, h3, hor, podNameStrip, hd, hi]

/-- Witness for `claim5_service_name`: the label tier applied at a concrete
pod carrying only `k8s-app`. -/
theorem claim5_witness :
    labelValue "app.kubernetes.io/name"
      (Pod.mk "default" "auth-abc-def" [("k8s-app", "auth-service")] [] [] "Running" []).labels
      = none ∧
    getServiceName
      (Pod.mk "default" "auth-abc-def" [("k8s-app", "auth-service")] [] [] "Running" [])
      = "auth-service" := by
  refine ⟨by decide, ?_⟩
  exact claim5_service_name.2.2.2.1
    (Pod.mk "default" "auth-abc-def" [("k8s-app", "auth-service")] [] [] "Running" [])
    "auth-service" (by decide) (by decide) (by decide)

theorem formatDate_ne_empty (t : Instant) : formatDate t ≠ "" := by
  intro h
  have hl : (formatDate t).length = 0 := by rw [h]; rfl
  simp only [formatDate, String.length_append] at hl
  have h1 : ("-" : String).length = 1 := by decide
  rw [h1] at hl
  omega

theorem filename_ne_empty (a b : String) : a ++ "-" ++ b ++ ".pprof" ≠ "" := by
  intro h
  have hl : (a ++ "-" ++ b ++ ".pprof").length = 0 := by rw [h]; rfl
  simp only [String.length_append] at hl
  have h1 : ("-" : String).length = 1 := by decide
  have h2 : (".pprof" : String).length = 6 := by decide
  rw [h1, h2] at hl
  omega

/-- C6: for a profile published with kind `k` and capture timestamp `ts`,
the object key is `<prefix>/<YYYY-MM-DD>/<service-name>/<YYYYMMDD-HHMMSS>-<k>.pprof`
with the empty prefix segment collapsed, the date segment is the date of
`ts`, and the attached metadata carries `profile-type = k` and
`timestamp = rfc3339(ts)`. -/
theorem claim6_object_key_metadata (u : S3Uploader) (pod : Pod) (profile : Profile)
    (reason : String) (hs : getServiceName pod ≠ "") :
    (u.pfx ≠ "" →
      generateKey u pod profile =
        u.pfx ++ "/" ++ formatDate profile.timestamp ++ "/" ++ getServiceName pod ++ "/" ++
          (formatCompact profile.timestamp ++ "-" ++ profile.ptype ++ ".pprof")) ∧
    (u.pfx = "" →
      generateKey u pod profile =
        formatDate profile.timestamp ++ "/" ++ getServiceName pod ++ "/" ++
          (formatCompact profile.timestamp ++ "-" ++ profile.ptype ++ ".pprof")) ∧
    (uploadProfile u pod profile reason).key = generateKey u pod profile ∧
    alookup "profile-type" (uploadProfile u pod profile reason).metadata = some profile.ptype ∧
    alookup "timestamp" (uploadProfile u pod profile reason).metadata =
      some (formatRFC3339 profile.timestamp) := by
  have hd := formatDate_ne_empty profile.timestamp
  have hf := filename_ne_empty (formatCompact profile.timestamp) profile.ptype
  have hf' : formatCompact profile.timestamp ++ ("-" ++ (profile.ptype ++ ".pprof")) ≠ "" := by
    simpa [String.append_assoc] using hf
  refine ⟨fun hp => ?_, fun hp => ?_, rfl, ?_, ?_⟩
  · simp [generateKey, filepathJoin, joinSlash, hp, hd, hs, hf', String.append_assoc]
  · simp [generateKey, filepathJoin, joinSlash, hp, hd, hs, hf', String.append_assoc]
  · simp only [uploadProfile]
    rfl
  · simp only [uploadProfile]
    rfl

/-- Witness for `claim6_object_key_metadata`: the key and metadata of a
heap profile captured at 2024-01-15 12:30:45 for a pod labelled
`app = test-app`, with prefix `profiles` (the key matches the uploader
test's expectation). -/
theorem claim6_witness :
    getServiceName (Pod.mk "production" "test-app-abc123-xyz456"
        [("app", "test-app")] [] [] "Running" []) ≠ "" ∧
    generateKey ⟨"test-bucket", "profiles"⟩
        (Pod.mk "production" "test-app-abc123-xyz456" [("app", "test-app")] [] [] "Running" [])
        ⟨"heap", [1], ⟨2024, 1, 15, 12, 30, 45⟩⟩ =
      "profiles/2024-01-15/test-app/20240115-123045-heap.pprof" ∧
    alookup "profile-type"
        (uploadProfile ⟨"test-bucket", "profiles"⟩
          (Pod.mk "production" "test-app-abc123-xyz456" [("app", "test-app")] [] [] "Running" [])
          ⟨"heap", [1], ⟨2024, 1, 15, 12, 30, 45⟩⟩ "on-demand").metadata = some "heap" ∧
    alookup "timestamp"
        (uploadProfile ⟨"test-bucket", "profiles"⟩
          (Pod.mk "production" "test-app-abc123-xyz456" [("app", "test-app")] [] [] "Running" [])
          ⟨"heap", [1], ⟨2024, 1, 15, 12, 30, 45⟩⟩ "on-demand").metadata =
      some "2024-01-15T12:30:45Z" := by
  have h := claim6_object_key_metadata ⟨"test-bucket", "profiles"⟩
    (Pod.mk "production" "test-app-abc123-xyz456" [("app", "test-app")] [] [] "Running" [])
    ⟨"heap", [1], ⟨2024, 1, 15, 12, 30, 45⟩⟩ "on-demand" (by decide)
  refine ⟨by decide, ?_, h.2.2.2.1, ?_⟩
  · rw [h.1 (by decide)]
    decide
  · rw [h.2.2.2.2]
    decide

/-- A running, opted-in pod `default/web` used in the cooldown scenarios. -/
def webPod : Pod :=
  { ns := "default", name := "web", labels := [("app", "svc")]
    annots := [("bolometer.io/enabled", "true")], ownerRefs := []
    phase := "Running", containers := [] }

/-- An intent named `nm` with CPU/memory thresholds 30/30 and cooldown 300
seconds. -/
def intent (nm : String) : ProfilingConfig :=
  { name := nm, ns := "default", selectorNamespace := "default", labelSelector := []
    thresholds := { cpuThresholdPercent := 30, memoryThresholdPercent := 30
                    checkIntervalSeconds := 10, cooldownSeconds := 300 }
    onDemand := none
    s3Config := { bucket := "b", pfx := "", region := "us-west-2", endpoint := "" }
    profileTypes := [] }

/-- A metrics source reporting CPU at 85 percent of request and memory at
10 percent, which exceeds the 30-percent CPU threshold. -/
def metricsHigh : Pod → Except String PodMetrics :=
  fun _ => .ok { cpuUsagePercent := 85, memoryUsagePercent := 10
                 cpuUsage := 850, memoryUsage := 100 }

/-- C2 at its failing input: tracking `default/web`, marking it profiled at
time 100, then tracking it again (exactly what each periodic reconcile does)
erases the recorded last-profile time instead of leaving it unchanged. -/
theorem claim2_code_evaluation :
    alookup "default/web"
      (updateLastProfileTime (trackPod emptyWatcher webPod (intent "c1")) webPod
        100).lastProfileTime = some 100 ∧
    alookup "default/web"
      (trackPod
        (updateLastProfileTime (trackPod emptyWatcher webPod (intent "c1")) webPod 100)
        webPod (intent "c1")).lastProfileTime = none := by
  constructor
  · decide
  · decide

/-- The trace refuting C1: a threshold capture of `default/web` by intent
`c1` succeeds at time 100; the next periodic reconcile re-tracks the pod;
the following threshold tick of `c1` at time 140 captures again, and a
threshold tick of a second intent `c2` at time 150 is blocked by `c1`'s
capture. -/
def cexEvents : List WatchEvent :=
  [ .reconcileTrack [webPod] (intent "c1"),
    .thresholdTick (intent "c1") metricsHigh (fun _ => true) 100,
    .reconcileTrack [webPod] (intent "c1"),
    .thresholdTick (intent "c1") metricsHigh (fun _ => true) 140,
    .thresholdTick (intent "c2") metricsHigh (fun _ => true) 150 ]

/-- C1 counterexample: on `cexEvents`, (a) after a successful threshold
capture of `(default/web, c1)` completing at time 100, a second
threshold-driven capture of the same pair starts at time 140 < 100 + 300,
because the intervening re-track cleared the cooldown; and (b) intent `c2`,
which never captured the pod, starts no capture at time 150 even though the
thresholds are exceeded — the cooldown state is keyed by instance alone,
not by the (instance, intent) pair. -/
theorem claim1_counterexample :
    ((runEvents emptyWatcher cexEvents).2.map
      (fun r => (r.configName, r.time, r.viaOnDemand, r.succeeded)) =
      [("c1", 100, false, true), ("c1", 140, false, true)]) ∧
    (∃ r ∈ (runEvents emptyWatcher cexEvents).2,
      r.configName = "c1" ∧ r.podKey = "default/web" ∧ r.viaOnDemand = false ∧
      100 < r.time ∧ r.time < 100 + 300) ∧
    (∀ r ∈ (runEvents emptyWatcher cexEvents).2, r.configName ≠ "c2") := by
  refine ⟨by decide, ?_, by decide⟩
  decide

theorem canProfile_false_of_within (pw : PodWatcher) (pod : Pod) (cd now t : Int)
    (h : alookup (getPodKey pod) pw.lastProfileTime = some t) (hle : now - t ≤ cd) :
    canProfile pw pod cd now = false := by
  simp only [canProfile, h, decide_eq_false_iff_not, not_lt]
  omega

theorem updateLastProfileTime_lookup_ne (pw : PodWatcher) (pod : Pod) (now : Int)
    (k : String) (h : getPodKey pod ≠ k) :
    alookup k (updateLastProfileTime pw pod now).lastProfileTime =
      alookup k pw.lastProfileTime :=
  alookup_ainsert_ne k (getPodKey pod) now pw.lastProfileTime h

theorem checkPodsAux_gated (config : ProfilingConfig)
    (metrics : Pod → Except String PodMetrics) (captureOk : Pod → Bool) (now : Int)
    (k : String) (t : Int) (hcool : now - t ≤ config.thresholds.cooldownSeconds) :
    ∀ (trs : List TrackedPod) (pw : PodWatcher),
      alookup k pw.lastProfileTime = some t →
      alookup k (checkPodsAux config metrics captureOk now pw trs).1.lastProfileTime = some t ∧
      ∀ r ∈ (checkPodsAux config metrics captureOk now pw trs).2, r.podKey ≠ k := by
  intro trs
  induction trs with
  | nil =>
    intro pw h
    exact ⟨h, fun r hr => absurd hr (by simp [checkPodsAux])⟩
  | cons tracked rest ih =>
    intro pw h
    by_cases hk : getPodKey tracked.pod = k
    · have hcp : canProfile pw tracked.pod config.thresholds.cooldownSeconds now = false :=
        canProfile_false_of_within pw tracked.pod _ now t (by rw [hk]; exact h) hcool
      simp only [checkPodsAux, hcp, Bool.false_eq_true, if_false]
      exact ih pw h
    · simp only [checkPodsAux]
      by_cases hcp : canProfile pw tracked.pod config.thresholds.cooldownSeconds now = true
      · rw [if_pos hcp]
        cases hm : metrics tracked.pod with
        | error e => exact ih pw h
        | ok pm =>
          dsimp only
          by_cases hchk : (checkThresholds pm config.thresholds.cpuThresholdPercent
              config.thresholds.memoryThresholdPercent).1 = true
          · rw [if_pos hchk]
            by_cases hcap : captureOk tracked.pod = true
            · rw [if_pos hcap]
              obtain ⟨ih1, ih2⟩ := ih (updateLastProfileTime pw tracked.pod now)
                (by rw [updateLastProfileTime_lookup_ne pw tracked.pod now k hk]; exact h)
              refine ⟨ih1, ?_⟩
              intro r hr
              rcases List.mem_cons.mp hr with rfl | hr2
              · exact hk
              · exact ih2 r hr2
            · rw [if_neg hcap]
              obtain ⟨ih1, ih2⟩ := ih pw h
              refine ⟨ih1, ?_⟩
              intro r hr
              rcases List.mem_cons.mp hr with rfl | hr2
              · exact hk
              · exact ih2 r hr2
          · rw [if_neg hchk]
            exact ih pw h
      · rw [if_neg hcp]
        exact ih pw h

theorem trackPod_lookup_ne (pw : PodWatcher) (p : Pod) (config : ProfilingConfig)
    (k : String) (h : getPodKey p ≠ k) :
    alookup k (trackPod pw p config).lastProfileTime = alookup k pw.lastProfileTime := by
  unfold trackPod
  cases halt : alookup (getPodKey p) pw.trackedPods with
  | some v =>
    simp only [halt, stopTrackingLocked]
    exact alookup_aerase_ne k (getPodKey p) pw.lastProfileTime h
  | none => simp only [halt]

theorem foldl_trackPod_lookup (config : ProfilingConfig) (k : String) :
    ∀ (pods : List Pod) (pw : PodWatcher), (∀ p ∈ pods, getPodKey p ≠ k) →
      alookup k (pods.foldl (fun w p => trackPod w p config) pw).lastProfileTime =
        alookup k pw.lastProfileTime := by
  intro pods
  induction pods with
  | nil => intro pw _; rfl
  | cons p rest ih =>
    intro pw hall
    rw [List.foldl_cons, ih _ (fun q hq => hall q (List.mem_cons_of_mem p hq))]
    exact trackPod_lookup_ne pw p config k (hall p (List.mem_cons_self p rest))

theorem stopTrackingPod_lookup_ne (pw : PodWatcher) (p : Pod) (k : String)
    (h : getPodKey p ≠ k) :
    alookup k (stopTrackingPod pw p).lastProfileTime = alookup k pw.lastProfileTime := by
  unfold stopTrackingPod
  cases halt : alookup (getPodKey p) pw.trackedPods with
  | some v =>
    simp only [halt, stopTrackingLocked]
    exact alookup_aerase_ne k (getPodKey p) pw.lastProfileTime h
  | none => simp only [halt]

theorem stepEvent_gated (k : String) (t : Int) (e : WatchEvent) (pw : PodWatcher)
    (h : alookup k pw.lastProfileTime = some t)
    (hnt : touchesKey k e = false)
    (hcd : insideCooldownWindow t e) :
    alookup k (stepEvent pw e).1.lastProfileTime = some t ∧
    ∀ r ∈ (stepEvent pw e).2, r.viaOnDemand = false → r.podKey ≠ k := by
  cases e with
  | thresholdTick config metrics captureOk now =>
    obtain ⟨h1, h2⟩ := checkPodsAux_gated config metrics captureOk now k t hcd
      (getTrackedPods pw) pw h
    exact ⟨h1, fun r hr _ => h2 r hr⟩
  | onDemandTickEv config captureOk now =>
    refine ⟨h, ?_⟩
    intro r hr hvo
    simp only [stepEvent, onDemandTick, List.mem_map] at hr
    obtain ⟨tracked, _, rfl⟩ := hr
    simp at hvo
  | reconcileTrack pods config =>
    have hall : ∀ p ∈ pods, getPodKey p ≠ k := by
      intro p hp heq
      have hany : pods.any (fun p => getPodKey p == k) = true :=
        List.any_eq_true.mpr ⟨p, hp, by simp [heq]⟩
      rw [show touchesKey k (WatchEvent.reconcileTrack pods config) =
        pods.any (fun p => getPodKey p == k) from rfl, hany] at hnt
      exact Bool.true_eq_false.mp hnt
    refine ⟨?_, fun r hr _ => absurd hr (List.not_mem_nil r)⟩
    show alookup k (pods.foldl (fun w p => trackPod w p config) pw).lastProfileTime = some t
    rw [foldl_trackPod_lookup config k pods pw hall]
    exact h
  | stopTracking pod =>
    have hne : getPodKey pod ≠ k := by
      intro heq
      rw [show touchesKey k (WatchEvent.stopTracking pod) = (getPodKey pod == k) from rfl] at hnt
      simp [heq] at hnt
    refine ⟨?_, fun r hr _ => absurd hr (List.not_mem_nil r)⟩
    show alookup k (stopTrackingPod pw pod).lastProfileTime = some t
    rw [stopTrackingPod_lookup_ne pw pod k hne]
    exact h

/-- C1 amended: cooldown state is keyed per instance (namespace/name) and
shared across intents. If the last-profile time of instance key `k` is `t`
(as the capture path records after a successful threshold-driven capture
completing at `t`), then over any subsequent events that do not re-track or
untrack `k` — re-tracking clears the recorded time — and whose threshold
ticks fall at times `now ≤ t + cooldown` of the config they run for, no
threshold-driven capture of `k` starts, by any intent, and the recorded time
stays `t`. -/
theorem claim1_amended (pw : PodWatcher) (evs : List WatchEvent) (k : String) (t : Int)
    (hlast : alookup k pw.lastProfileTime = some t)
    (hkeep : ∀ e ∈ evs, touchesKey k e = false)
    (hwin : ∀ e ∈ evs, insideCooldownWindow t e) :
    alookup k (runEvents pw evs).1.lastProfileTime = some t ∧
    ∀ r ∈ (runEvents pw evs).2, r.viaOnDemand = false → r.podKey ≠ k := by
  induction evs generalizing pw with
  | nil => exact ⟨hlast, fun r hr => absurd hr (List.not_mem_nil r)⟩
  | cons e rest ih =>
    obtain ⟨h1, h2⟩ := stepEvent_gated k t e pw hlast
      (hkeep e (List.mem_cons_self e rest)) (hwin e (List.mem_cons_self e rest))
    obtain ⟨h3, h4⟩ := ih (stepEvent pw e).1 h1
      (fun e' he' => hkeep e' (List.mem_cons_of_mem e he'))
      (fun e' he' => hwin e' (List.mem_cons_of_mem e he'))
    constructor
    · simpa [runEvents] using h3
    · intro r hr hvo
      simp only [runEvents, List.mem_append] at hr
      rcases hr with hr | hr
      · exact h2 r hr hvo
      · exact h4 r hr hvo

/-- The watcher state right after a successful capture of `default/web` at
time 100 under intent `c1`. -/
def witWatcher : PodWatcher :=
  ⟨[("default/web", ⟨webPod, intent "c1"⟩)], [("default/web", 100)]⟩

/-- A threshold tick of `c1` at time 150 — inside the 300-second window. -/
def witEvents : List WatchEvent :=
  [.thresholdTick (intent "c1") metricsHigh (fun _ => true) 150]

/-- Witness for `claim1_amended`: the tick at 150 starts no capture of
`default/web` and leaves its recorded time at 100. -/
theorem claim1_amended_witness :
    alookup "default/web" witWatcher.lastProfileTime = some 100 ∧
    alookup "default/web" (runEvents witWatcher witEvents).1.lastProfileTime = some 100 ∧
    ∀ r ∈ (runEvents witWatcher witEvents).2,
      r.viaOnDemand = false → r.podKey ≠ "default/web" := by
  have h := claim1_amended witWatcher witEvents "default/web" 100 (by decide)
    (by
      intro e he
      simp only [witEvents, List.mem_singleton] at he
      subst he
      rfl)
    (by
      intro e he
      simp only [witEvents, List.mem_singleton] at he
      subst he
      show (150 : Int) - 100 ≤ 300
      norm_num)
  exact ⟨by decide, h.1, h.2⟩

end Bolometer
